import Mathlib

set_option autoImplicit false

/-!
Shallow embedding of the Role & Access Configuration Core of the `gcimedia/schools`
repository, together with proofs settling the frozen claims about it.

Embedded source files:
* `src/apps/base/registry.py` — `AuthPagesRegistry` (the auth-page registry);
  `AuthConfig.bulk_configure` in `src/apps/home/config/auth.py` is verbatim the same code.
* `src/apps/home/config/auth.py` — `AuthConfig` (role registry and staff-status methods).
* `src/apps/home/models.py` — `UserRole` and `User` models (role records, per-user
  staff-flag reconciliation).
* `src/apps/home/signals.py` — the `m2m_changed` staff-status handler.
* `src/apps/base/registry/home.py` — `HomeURLRegistry`.

Python dictionaries are modelled as insertion-ordered association lists with
Python-dict update semantics (`d[k] = v` replaces in place when the key exists,
otherwise appends).  Machine state mutated in place by Python is passed
explicitly; a method that can raise returns its result paired with an
`Option String` carrying the exception message (`none` = no exception), and the
returned state is the state at the moment the exception escapes (Python leaves
partial mutations in place when a method raises mid-way).  Django group
membership is represented by group name (`Group.name` is unique); renaming a
group is not modelled, no claim involves it.

A peculiarity of this source snapshot: the role model class is `UserRole`
(`models.py` line 413, a `Group` child, so its reverse query name on `Group` is
`userrole`), but every role-group queryset in `models.py` still filters on
`usergroup__isnull=False` (lines 609, 619, 630, 707, 788) — a leftover of a
`UserGroup` → `UserRole` rename (`admin.py` and the `setup_roles` /
`setup_role_permissions` commands still import the nonexistent `UserGroup`).
`usergroup` is therefore an invalid lookup keyword and each of those filters
raises `FieldError` at call time, which every caller catches with a blanket
`except Exception` that only logs.  Two families of definitions embed the
affected methods: the intent-level ones (`isRoleGroup` and its users) give the
filter its intended semantics — a `UserRole` row with that group name exists —
and are used only for claims whose conclusions do not depend on the difference
(superuser guards, validation-precedes-persistence); the `_run` definitions
model the methods as they execute in this snapshot, with the filter raising
`FieldError` (`usergroup_filter`), and settle the claims that do depend on it.
-/

namespace Schools

/-- Insertion-ordered string-keyed dictionary, as a Python `dict`. -/
abbrev Dict (α : Type) := List (String × α)

/-- `d.get(k)` / `d[k]`: value of the first (unique) binding of `k`. -/
def dget {α : Type} : Dict α → String → Option α
  | [], _ => none
  | (k', v') :: rest, k => if k' = k then some v' else dget rest k

/-- `k in d`. -/
def dmem {α : Type} (d : Dict α) (k : String) : Bool :=
  (dget d k).isSome

/-- `d[k] = v`: replace in place if the key exists, else append (Python dict order). -/
def dset {α : Type} : Dict α → String → α → Dict α
  | [], k, v => [(k, v)]
  | (k', v') :: rest, k, v =>
      if k' = k then (k, v) :: rest else (k', v') :: dset rest k v

/-- Dynamic (duck-typed) Python values stored in config dictionaries. -/
inductive Val where
  | vbool : Bool → Val
  | vstr : String → Val
  | vint : Int → Val
  deriving DecidableEq

/-! ## `AuthPagesRegistry` (`src/apps/base/registry.py`) -/

structure AuthPagesRegistry where
  enabled_pages : Dict Val
  page_configs : Dict (Dict Val)
  deriving DecidableEq

/-- `AuthPagesRegistry.__init__`: the fixed page enumeration with its defaults. -/
def AuthPagesRegistry.init : AuthPagesRegistry :=
  { enabled_pages :=
      [("signin", .vbool true), ("signup", .vbool true), ("profile_update", .vbool true),
       ("password_reset", .vbool false), ("email_verification", .vbool false),
       ("logout", .vbool true)],
    page_configs := [] }

/-- `is_enabled`: `self._enabled_pages.get(page_name, False)`. -/
def AuthPagesRegistry.is_enabled (s : AuthPagesRegistry) (page_name : String) : Val :=
  (dget s.enabled_pages page_name).getD (.vbool false)

/-- One iteration of the `bulk_configure` loop body after the membership check:
if an `enabled` key is present it is moved into `_enabled_pages` and stripped from
the config; a remaining non-empty config is stored in `_page_configs`. -/
def applyPageEntry (s : AuthPagesRegistry) (page_name : String) (config : Dict Val) :
    AuthPagesRegistry :=
  match dget config "enabled" with
  | some v =>
      let s1 := { s with enabled_pages := dset s.enabled_pages page_name v }
      let config1 := config.filter (fun p => p.1 ≠ "enabled")
      if config1.isEmpty then s1
      else { s1 with page_configs := dset s1.page_configs page_name config1 }
  | none =>
      if config.isEmpty then s
      else { s with page_configs := dset s.page_configs page_name config }

/-- `bulk_configure(pages_config)`: iterates the batch in insertion order; each
page name is membership-checked only when its entry is reached, and an unknown
name raises `ValueError` at that point, leaving the mutations already applied to
earlier entries in place. -/
def AuthPagesRegistry.bulk_configure (s : AuthPagesRegistry) :
    List (String × Dict Val) → AuthPagesRegistry × Option String
  | [] => (s, none)
  | (page_name, config) :: rest =>
      if dmem s.enabled_pages page_name then
        AuthPagesRegistry.bulk_configure (applyPageEntry s page_name config) rest
      else
        (s, some ("Unknown auth page: " ++ page_name))

/-! ## `AuthConfig` role registry (`src/apps/home/config/auth.py`) -/

/-- Python `str.title()` (ASCII behaviour): the first letter of every
alphabetic run is uppercased, the rest lowercased. -/
def pyTitleAux : List Char → Bool → List Char
  | [], _ => []
  | c :: cs, prevAlpha =>
      if c.isAlpha then
        (if prevAlpha then c.toLower else c.toUpper) :: pyTitleAux cs true
      else c :: pyTitleAux cs false

def pyTitle (s : String) : String := String.mk (pyTitleAux s.toList false)

/-- The three input shapes accepted by `register_roles`: a full dict
(`name` / optional `display_name` / optional `is_staff`), a
`(name, display_name)` tuple, or a bare name string. -/
inductive RoleInput where
  | rdict (name : String) (display_name : Option String) (is_staff : Option Bool)
  | rtuple (name display_name : String)
  | rstr (name : String)
  deriving DecidableEq

def RoleInput.name : RoleInput → String
  | .rdict n _ _ => n
  | .rtuple n _ => n
  | .rstr n => n

/-- The `(name, display_name)` record appended to `self._roles` and the staff flag
written to `self._role_staff_status`, per input-shape branch of `register_roles`:
dict inputs default `display_name` to `name.title()` and `is_staff` to `False`;
tuple and string inputs always record staff status `False`. -/
def normalizeRole : RoleInput → (String × String) × Bool
  | .rdict n d st => ((n, d.getD (pyTitle n)), st.getD false)
  | .rtuple n d => ((n, d), false)
  | .rstr n => ((n, pyTitle n), false)

structure AuthConfig where
  enabled_pages : Dict Val
  page_configs : Dict (Dict Val)
  global_config : Dict Val
  roles : List (String × String)
  role_staff_status : Dict Bool
  default_role : Option String
  deriving DecidableEq

/-- `AuthConfig.__init__`. -/
def AuthConfig.init : AuthConfig :=
  { enabled_pages :=
      [("signin", .vbool true), ("signup", .vbool true), ("profile_update", .vbool true),
       ("password_reset", .vbool false), ("email_verification", .vbool false),
       ("logout", .vbool true)],
    page_configs := [],
    global_config :=
      [("username_field_label", .vstr "Username"),
       ("username_field_placeholder", .vstr "Enter your username")],
    roles := [],
    role_staff_status := [],
    default_role := none }

/-- `get_roles`: names of all registered roles. -/
def AuthConfig.get_roles (s : AuthConfig) : List String :=
  s.roles.map Prod.fst

/-- `is_valid_role`: `role_name in self.get_roles()`. -/
def AuthConfig.is_valid_role (s : AuthConfig) (role_name : String) : Bool :=
  (s.get_roles).contains role_name

/-- `get_default_role`. -/
def AuthConfig.get_default_role (s : AuthConfig) : Option String :=
  s.default_role

/-- `get_role_staff_status`: `self._role_staff_status.get(role_name, False)`. -/
def AuthConfig.get_role_staff_status (s : AuthConfig) (role_name : String) : Bool :=
  (dget s.role_staff_status role_name).getD false

/-- `get_staff_roles`: names whose staff-status entry is `True`. -/
def AuthConfig.get_staff_roles (s : AuthConfig) : List String :=
  (s.role_staff_status.filter Prod.snd).map Prod.fst

/-- `set_default_role`: raises `ValueError` for an unregistered name. -/
def AuthConfig.set_default_role (s : AuthConfig) (role_name : String) :
    AuthConfig × Option String :=
  if s.is_valid_role role_name then ({ s with default_role := some role_name }, none)
  else (s, some ("Role " ++ role_name ++ " not registered"))

/-- `set_role_staff_status`: raises `ValueError` for an unregistered name. -/
def AuthConfig.set_role_staff_status (s : AuthConfig) (role_name : String)
    (is_staff : Bool) : AuthConfig × Option String :=
  if s.is_valid_role role_name then
    ({ s with role_staff_status := dset s.role_staff_status role_name is_staff }, none)
  else (s, some ("Role " ++ role_name ++ " not registered"))

/-- One iteration of the `register_roles` loop: append the normalized record to
`self._roles` and write the staff flag into `self._role_staff_status`. -/
def AuthConfig.register_one (t : AuthConfig) (r : RoleInput) : AuthConfig :=
  { t with roles := t.roles ++ [(normalizeRole r).1],
           role_staff_status :=
             dset t.role_staff_status (normalizeRole r).1.1 (normalizeRole r).2 }

/-- `register_roles(roles, default_role=None)`: `self._roles = []`, then the loop
over the inputs, then — only if `default_role` is truthy — the validity check
(raising `ValueError` after the roles have already been replaced) and the
assignment of `self._default_role`. -/
def AuthConfig.register_roles (s : AuthConfig) (roles : List RoleInput)
    (default_role : Option String) : AuthConfig × Option String :=
  let s1 := roles.foldl AuthConfig.register_one { s with roles := [] }
  match default_role with
  | some d =>
      if d.isEmpty then (s1, none)
      else if s1.is_valid_role d then ({ s1 with default_role := some d }, none)
      else (s1, some ("Default role " ++ d ++ " not in registered roles"))
  | none => (s1, none)

/-- The staff-status map produced by the `register_roles` loop, starting from a
given map (entries for names not re-declared are retained). -/
def staffAfter (m : Dict Bool) (roles : List RoleInput) : Dict Bool :=
  roles.foldl (fun acc r => dset acc (normalizeRole r).1.1 (normalizeRole r).2) m

/-! ## `UserRole` and `User` models (`src/apps/home/models.py`) -/

/-- A persisted `UserRole` row (a Django `Group` subclass).  `pk = none` means
the record has not been saved yet. -/
structure UserRole where
  pk : Option Nat
  name : String
  display_name : String
  is_staff_role : Bool
  is_default_role : Bool
  deriving DecidableEq

/-- The `UserRole` table. -/
abbrev RoleDB := List UserRole

/-- Intended semantics of the `usergroup__isnull=False` filter: a group name is
a role group when a `UserRole` row with that name exists.  In this snapshot the
keyword is invalid and the filter actually raises `FieldError` (see
`usergroup_filter` and the `_run` definitions below); this intent-level version
is used only for claims whose conclusions are insensitive to the difference. -/
def isRoleGroup (db : RoleDB) (g : String) : Bool :=
  db.any (fun r => r.name == g)

/-- `UserRole.get_default_role` (classmethod):
`objects.filter(is_default_role=True).first()`. -/
def UserRole.get_default_role (db : RoleDB) : Option UserRole :=
  db.find? (fun r => r.is_default_role)

/-- `UserRole.get_role_staff_status` (classmethod): `objects.get(name=...)`;
`DoesNotExist` (and any other exception, via the generic handler) yields
`False`. -/
def UserRole.get_role_staff_status (db : RoleDB) (role_name : String) : Bool :=
  match db.filter (fun r => r.name == role_name) with
  | [r] => r.is_staff_role
  | _ => false

/-- A persisted `User` row.  `groups` is the ordered list of group names the
user belongs to. -/
structure User where
  pk : Option Nat
  is_superuser : Bool
  is_staff : Bool
  groups : List String
  deriving DecidableEq

/-- Python truthiness of a primary key (`if self.pk:`). -/
def pkTruthy : Option Nat → Bool
  | none => false
  | some n => n ≠ 0

/-- `User.get_role` with the intended lookup semantics: name of the first role
group, else `"No role assigned"` (as the snapshot runs, the filter raises
`FieldError` and the sentinel is always returned — see `User.get_role_run`). -/
def User.get_role (db : RoleDB) (u : User) : String :=
  match u.groups.find? (fun g => isRoleGroup db g) with
  | some g => g
  | none => "No role assigned"

/-- `User.get_role_object` with the intended lookup semantics: the `UserRole`
row of the first role group (as the snapshot runs it always returns `None` —
see `User.get_role_object_run`). -/
def User.get_role_object (db : RoleDB) (u : User) : Option UserRole :=
  match u.groups.find? (fun g => isRoleGroup db g) with
  | some g => db.find? (fun r => r.name == g)
  | none => none

/-- The `ValidationError` that the body of `User.clean` constructs when an
existing user belongs to more than one role group (`none` = no error raised),
with the intended lookup semantics (as the snapshot runs, the filter raises
`FieldError` before the count — see `User.cleanException_run`). -/
def User.cleanValidation (db : RoleDB) (u : User) : Option String :=
  if pkTruthy u.pk then
    let user_roles := u.groups.filter (fun g => isRoleGroup db g)
    if user_roles.length > 1 then
      some ("User can only belong to one role group. Currently assigned to: "
        ++ String.intercalate ", " user_roles)
    else none
  else none

/-- `User.clean`: the validation runs inside a `try`/`except Exception` block
whose handler only calls `logger.error`, so the `ValidationError` raised by the
body is caught there and never propagates — `clean` always returns without
error and without mutating the user. -/
def User.clean (db : RoleDB) (u : User) : Option String :=
  match User.cleanValidation db u with
  | some _ => none
  | none => none

/-- `User._update_staff_status_from_groups` with the intended lookup semantics:
recompute `is_staff` from the first role group (persisted via a direct queryset
update; the in-memory flag is set to the same value, so a single record models
both).  As the snapshot runs, `get_role_object` is always `None` and only the
strip-staff branch is reachable — see the `_run` version. -/
def User.update_staff_status_from_groups (db : RoleDB) (u : User) : User :=
  match User.get_role_object db u with
  | some role_obj =>
      if u.is_staff ≠ role_obj.is_staff_role then { u with is_staff := role_obj.is_staff_role }
      else u
  | none =>
      if u.is_staff && !u.is_superuser then { u with is_staff := false } else u

/-- `User.save` on an already-persisted user (`is_new = False`), the form invoked
recursively by `set_role` and by the staff-status updaters via
`user.save(update_fields=["is_staff"])`: pin superusers to `is_staff = True`,
run `clean` (whose validation error is swallowed, see `User.clean`), persist,
then recompute staff status from groups for non-superusers. -/
def User.save_existing (db : RoleDB) (u : User) : User :=
  let u1 := if u.is_superuser && !u.is_staff then { u with is_staff := true } else u
  if !u1.is_superuser then User.update_staff_status_from_groups db u1 else u1

/-- The `m2m_changed` receiver `update_user_staff_status_on_group_change`
(`src/apps/home/signals.py`): skips superusers, otherwise recomputes `is_staff`
from the first role group (direct queryset update).  Intended lookup semantics;
as the snapshot runs the target is always `False` — see the `_run` version. -/
def update_user_staff_status_on_group_change (db : RoleDB) (u : User) : User :=
  if u.is_superuser then u
  else
    let new_staff_status :=
      match User.get_role_object db u with
      | some role_obj => role_obj.is_staff_role
      | none => false
    if u.is_staff ≠ new_staff_status then { u with is_staff := new_staff_status } else u

/-- `User.set_role`: look up the role (`DoesNotExist` → `ValueError`, raised
before any mutation), remove the user from all role groups, add the new one
(each membership change fires the `m2m_changed` receiver; Django skips the
signal for an empty `remove()`), then for non-superusers set `is_staff` from the
role and save when it changed. -/
def User.set_role (db : RoleDB) (u : User) (role_name : String) : User × Option String :=
  match db.filter (fun r => r.name == role_name) with
  | [new_role] =>
      let had := u.groups.any (fun g => isRoleGroup db g)
      let u1 := { u with groups := u.groups.filter (fun g => !isRoleGroup db g) }
      let u1 := if had then update_user_staff_status_on_group_change db u1 else u1
      let u2 := { u1 with groups := u1.groups ++ [new_role.name] }
      let u2 := update_user_staff_status_on_group_change db u2
      if !u2.is_superuser then
        let old_staff := u2.is_staff
        let u3 := { u2 with is_staff := new_role.is_staff_role }
        (if old_staff ≠ u3.is_staff then User.save_existing db u3 else u3, none)
      else (u2, none)
  | _ => (u, some ("Role " ++ role_name ++ " does not exist"))

/-- `User._assign_default_role` with the intended lookup semantics: if the new
user has no role group, assign the default role via `set_role`; exceptions are
caught and logged.  As the snapshot runs, the role-group existence check raises
`FieldError` inside the method's own try block, so no default is ever assigned
(a claim-neutral difference for the approved claims that reach this code only
through superuser paths). -/
def User.assign_default_role (db : RoleDB) (u : User) : User :=
  if u.groups.any (fun g => isRoleGroup db g) then u
  else
    match UserRole.get_default_role db with
    | some default_role => (User.set_role db u default_role.name).1
    | none => u

/-- `User.save`: pin superusers staff, run `clean` for existing users (error
swallowed), persist (assigning a fresh pk to new users), assign the default role
to new users, then recompute staff status from groups for non-superusers. -/
def User.save (db : RoleDB) (u : User) (freshPk : Nat) : User :=
  let is_new := u.pk.isNone
  let u1 := if u.is_superuser && !u.is_staff then { u with is_staff := true } else u
  let u2 := if is_new then { u1 with pk := some freshPk } else u1
  let u3 := if is_new then User.assign_default_role db u2 else u2
  if !u3.is_superuser then User.update_staff_status_from_groups db u3 else u3

/-- `UserRole.clean`: raises `ValidationError` when this role is flagged default
and another persisted role (different pk) already is. -/
def UserRole.clean (db : RoleDB) (r : UserRole) : Option String :=
  let existing_default := db.filter (fun x => x.is_default_role && !(decide (x.pk = r.pk)))
  if r.is_default_role && !existing_default.isEmpty then
    some ("Only one role can be set as the default role. "
      ++ ((existing_default.head?.map UserRole.name).getD "") ++ " is currently the default.")
  else none

/-- `super().save()` for a role record: update the row with the same pk when it
exists, else insert (a fresh pk is assigned when `pk` is unset). -/
def roleUpsert (db : RoleDB) (r : UserRole) (freshPk : Nat) : RoleDB × UserRole :=
  match r.pk with
  | some p =>
      if db.any (fun x => x.pk == some p) then
        (db.map (fun x => if x.pk == some p then r else x), r)
      else (db ++ [r], r)
  | none =>
      let r1 := { r with pk := some freshPk }
      (db ++ [r1], r1)

/-- `UserRole.save`: run `clean` first (so a validation error leaves both the
role table and the users untouched), persist, then
`_update_users_staff_status`: for every non-superuser member of this group whose
`is_staff` differs from `is_staff_role`, set it and run the user's full save. -/
def UserRole.save (db : RoleDB) (users : List User) (r : UserRole) (freshPk : Nat) :
    (RoleDB × List User) × Option String :=
  match UserRole.clean db r with
  | some msg => ((db, users), some msg)
  | none =>
      let dbr := roleUpsert db r freshPk
      let users1 := users.map (fun u =>
        if u.groups.contains dbr.2.name && !u.is_superuser then
          (if u.is_staff ≠ dbr.2.is_staff_role then
            User.save_existing dbr.1 { u with is_staff := dbr.2.is_staff_role }
          else u)
        else u)
      ((dbr.1, users1), none)

/-- Count of persisted roles flagged as the default role. -/
def countDefaults (db : RoleDB) : Nat :=
  (db.filter (fun x => x.is_default_role)).length

/-! ## `AuthConfig` staff-status reconciliation (`src/apps/home/config/auth.py`) -/

/-- `AuthConfig.update_user_staff_status(user)` with the intended lookup
semantics: look up the user's role name, compare the registry's staff status
for it with the user's flag, and on a difference set the flag and run the
user's full save, reporting `True`.  The surrounding `try`/`except` returns
`False` on any exception.  As the snapshot runs, `get_role` always yields the
sentinel and the method is a no-op — see the `_run` version. -/
def AuthConfig.update_user_staff_status (cfg : AuthConfig) (db : RoleDB) (u : User) :
    Bool × User :=
  let user_role := User.get_role db u
  if !user_role.isEmpty && user_role ≠ "No role assigned" then
    let should_be_staff := cfg.get_role_staff_status user_role
    if u.is_staff ≠ should_be_staff then
      (true, User.save_existing db { u with is_staff := should_be_staff })
    else (false, u)
  else (false, u)

/-- `AuthConfig.bulk_update_staff_status()`: iterate `User.objects.all()` —
every user, superusers included — apply `update_user_staff_status` to each, and
count the calls that reported `True`.  Intent-level; see
`AuthConfig.bulk_update_staff_status_run` for the snapshot behaviour. -/
def AuthConfig.bulk_update_staff_status (cfg : AuthConfig) (db : RoleDB)
    (users : List User) : Nat × List User :=
  users.foldl (fun acc u =>
    let r := cfg.update_user_staff_status db u
    (acc.1 + (if r.1 then 1 else 0), acc.2 ++ [r.2])) (0, [])

/-! ## As-run embeddings of the role-group lookups (snapshot behaviour)

The role model class is `UserRole`, so the reverse query name on `Group` is
`userrole`; the lookup keyword `usergroup` used by `models.py` is invalid and
every `groups.filter(usergroup__isnull=False)` queryset raises `FieldError`
when the filter is built.  The definitions below embed the affected methods as
they actually execute: the filter outcome is an `Except` that is always an
error, and each caller's `except Exception` handler takes its logged-fallback
branch. -/

/-- Outcome of `groups.filter(usergroup__isnull=False)` in this snapshot: the
invalid `usergroup` keyword makes the filter raise `FieldError` instead of
returning the user's role groups (the `.ok` value it was meant to produce). -/
def usergroup_filter (_db : RoleDB) (_u : User) : Except String (List String) :=
  Except.error "Cannot resolve keyword usergroup into field"

/-- `User.get_role` as it runs: the filter raises inside the try block, the
except block logs and returns the sentinel. -/
def User.get_role_run (db : RoleDB) (u : User) : String :=
  match usergroup_filter db u with
  | .ok gs =>
      match gs.head? with
      | some g => g
      | none => "No role assigned"
  | .error _ => "No role assigned"

/-- `User.get_role_object` as it runs: the filter raises inside the try block,
the except block logs and returns `None`. -/
def User.get_role_object_run (db : RoleDB) (u : User) : Option UserRole :=
  match usergroup_filter db u with
  | .ok gs =>
      match gs.head? with
      | some g => db.find? (fun r => r.name == g)
      | none => none
  | .error _ => none

/-- The exception the body of `User.clean` raises as it runs: for an existing
user the queryset filter raises `FieldError` before `count()` can run, so the
multiple-roles `ValidationError` message is never constructed. -/
def User.cleanException_run (db : RoleDB) (u : User) : Option String :=
  if pkTruthy u.pk then
    match usergroup_filter db u with
    | .ok user_roles =>
        if user_roles.length > 1 then
          some ("User can only belong to one role group. Currently assigned to: "
            ++ String.intercalate ", " user_roles)
        else none
    | .error e => some e
  else none

/-- `User.clean` as it runs: whatever the body raises — here the `FieldError`
from the filter — is caught by the method's own `except Exception` handler,
which only logs, so `clean` never propagates an error. -/
def User.clean_run (db : RoleDB) (u : User) : Option String :=
  match User.cleanException_run db u with
  | some _ => none
  | none => none

/-- `User._update_staff_status_from_groups` as it runs: `get_role_object`
always returns `None`, so only the no-role branch is reachable — a staff flag
on a non-superuser is stripped to `False`, never recomputed from a role. -/
def User.update_staff_status_from_groups_run (db : RoleDB) (u : User) : User :=
  match User.get_role_object_run db u with
  | some role_obj =>
      if u.is_staff ≠ role_obj.is_staff_role then { u with is_staff := role_obj.is_staff_role }
      else u
  | none =>
      if u.is_staff && !u.is_superuser then { u with is_staff := false } else u

/-- `User.save` on an existing user as it runs (superuser pin, swallowed clean,
then the as-run group recomputation for non-superusers). -/
def User.save_existing_run (db : RoleDB) (u : User) : User :=
  let u1 := if u.is_superuser && !u.is_staff then { u with is_staff := true } else u
  if !u1.is_superuser then User.update_staff_status_from_groups_run db u1 else u1

/-- The `m2m_changed` receiver as it runs: for non-superusers
`get_role_object` is always `None`, so the target staff status is always
`False` and any staff flag is silently stripped on a group change. -/
def update_user_staff_status_on_group_change_run (db : RoleDB) (u : User) : User :=
  if u.is_superuser then u
  else
    let new_staff_status :=
      match User.get_role_object_run db u with
      | some role_obj => role_obj.is_staff_role
      | none => false
    if u.is_staff ≠ new_staff_status then { u with is_staff := new_staff_status } else u

/-- `AuthConfig.update_user_staff_status` as it runs: `get_role` always yields
the sentinel, so the guard fails and the method returns `False` without
touching the user. -/
def AuthConfig.update_user_staff_status_run (cfg : AuthConfig) (db : RoleDB) (u : User) :
    Bool × User :=
  let user_role := User.get_role_run db u
  if !user_role.isEmpty && user_role ≠ "No role assigned" then
    let should_be_staff := cfg.get_role_staff_status user_role
    if u.is_staff ≠ should_be_staff then
      (true, User.save_existing_run db { u with is_staff := should_be_staff })
    else (false, u)
  else (false, u)

/-- `AuthConfig.bulk_update_staff_status` as it runs: iterate every user and
apply the as-run per-user update. -/
def AuthConfig.bulk_update_staff_status_run (cfg : AuthConfig) (db : RoleDB)
    (users : List User) : Nat × List User :=
  users.foldl (fun acc u =>
    let r := cfg.update_user_staff_status_run db u
    (acc.1 + (if r.1 then 1 else 0), acc.2 ++ [r.2])) (0, [])

/-! ## `HomeURLRegistry` (`src/apps/base/registry/home.py`) -/

structure HomeURLRegistry where
  home_url_name : Option String
  home_app : Option String
  registered : Bool
  deriving DecidableEq

/-- `HomeURLRegistry.__init__`. -/
def HomeURLRegistry.init : HomeURLRegistry :=
  { home_url_name := none, home_app := none, registered := false }

/-- `register_home_url(url_name, app_name)`: when already registered, log a
warning and return `False` leaving the state untouched; otherwise record the
registration and return `True`. -/
def HomeURLRegistry.register_home_url (s : HomeURLRegistry) (url_name app_name : String) :
    HomeURLRegistry × Bool :=
  if s.registered then (s, false)
  else ({ home_url_name := some url_name, home_app := some app_name, registered := true }, true)

/-- `get_home_url_name`. -/
def HomeURLRegistry.get_home_url_name (s : HomeURLRegistry) : Option String :=
  s.home_url_name

/-- A sequence of `register_home_url` calls, collecting each call's return value. -/
def registerHomeUrlAll (s : HomeURLRegistry) :
    List (String × String) → HomeURLRegistry × List Bool
  | [] => (s, [])
  | (u, a) :: rest =>
      let r := s.register_home_url u a
      let r2 := registerHomeUrlAll r.1 rest
      (r2.1, r.2 :: r2.2)

/-! ## Concrete states used by the claims -/

/-- Registry state after one module registers `admin` (staff, default). -/
def cfgAdmin : AuthConfig :=
  (AuthConfig.register_roles AuthConfig.init
    [RoleInput.rdict "admin" none (some true)] (some "admin")).1

/-- The registry state after the ordinary two-module startup sequence: after
`cfgAdmin`, a later `register_roles` call replaces the role set with `student`.
The staff-status entry and the default role of the first registration survive
the replacement. -/
def cfgStale : AuthConfig :=
  (AuthConfig.register_roles cfgAdmin [RoleInput.rstr "student"] none).1

/-- Role table with a staff `admin` role and a non-staff default `student` role. -/
def dbTwoRoles : RoleDB :=
  [{ pk := some 1, name := "admin", display_name := "Admin",
     is_staff_role := true, is_default_role := false },
   { pk := some 2, name := "student", display_name := "Student",
     is_staff_role := false, is_default_role := true }]

/-- A persisted staff non-superuser simultaneously assigned to two role groups
(bypassing `set_role`). -/
def uTwoGroupsStaff : User :=
  { pk := some 7, is_superuser := false, is_staff := true, groups := ["admin", "student"] }

/-- Registry state where only the non-staff role `student` is declared. -/
def cfgStudent : AuthConfig :=
  (AuthConfig.register_roles AuthConfig.init
    [RoleInput.rdict "student" none (some false)] none).1

/-- Registry state after additionally flagging `student` as a staff role via
`set_role_staff_status` — the staff-flag-edit scenario the spec gives for bulk
reconciliation. -/
def cfgStudentStaff : AuthConfig :=
  (AuthConfig.set_role_staff_status cfgStudent "student" true).1

/-- A persisted non-superuser in the `student` group whose staff flag (`false`)
is stale relative to `cfgStudentStaff` and awaits bulk reconciliation. -/
def uStale : User :=
  { pk := some 4, is_superuser := false, is_staff := false, groups := ["student"] }

/-- Role table holding only the non-staff default role `student`. -/
def dbStudent : RoleDB :=
  [{ pk := some 1, name := "student", display_name := "Student",
     is_staff_role := false, is_default_role := true }]

/-- A persisted superuser (staff, as superusers always are) in the `student` group. -/
def superStudent : User :=
  { pk := some 1, is_superuser := true, is_staff := true, groups := ["student"] }

/-!
# Theorems

General lemmas about the embedded operations, followed by the claim theorems,
their witnesses, and the counterexamples.
-/

theorem dget_dset {α : Type} (d : Dict α) (k k' : String) (v : α) :
    dget (dset d k v) k' = if k' = k then some v else dget d k' := by
  induction d with
  | nil =>
      simp only [dset, dget]
      by_cases h : k = k'
      · subst h; simp
      · rw [if_neg h, if_neg (fun h' => h h'.symm)]
  | cons hd tl ih =>
      obtain ⟨k₀, v₀⟩ := hd
      simp only [dset]
      by_cases h₀ : k₀ = k
      · subst h₀
        simp only [if_pos rfl, dget]
        by_cases h₁ : k₀ = k'
        · subst h₁; simp
        · rw [if_neg h₁, if_neg (fun h' => h₁ h'.symm), if_neg h₁]
      · rw [if_neg h₀]
        simp only [dget]
        by_cases h₁ : k₀ = k'
        · rw [if_pos h₁, if_pos h₁, if_neg (fun h' => h₀ (h₁.trans h'))]
        · rw [if_neg h₁, if_neg h₁, ih]

theorem dmem_dset {α : Type} (d : Dict α) (k k' : String) (v : α) :
    dmem (dset d k v) k' = (decide (k' = k) || dmem d k') := by
  by_cases h : k' = k <;> simp [dmem, dget_dset, h]

theorem dmem_applyPageEntry (s : AuthPagesRegistry) (page_name : String)
    (config : Dict Val) (k : String) (h : dmem s.enabled_pages page_name = true) :
    dmem (applyPageEntry s page_name config).enabled_pages k = dmem s.enabled_pages k := by
  unfold applyPageEntry
  rcases he : dget config "enabled" with _ | v
  · dsimp only
    split <;> rfl
  · dsimp only
    split <;>
    · show dmem (dset s.enabled_pages page_name v) k = dmem s.enabled_pages k
      rw [dmem_dset]
      by_cases hk : k = page_name <;> simp [hk, h]

/-- C1 (corrected claim): `bulk_configure` on the auth-page registry is not
atomic.  It validates each page name only as its entry is reached: for a batch
that splits as known-page entries `good` followed by an entry with an unknown
name `bad`, the call raises the unknown-page error at `bad`, the entries of
`good` have already been applied (enabled flags and stored configs mutated),
and the entries at and after `bad` are not applied; the registry is unchanged
only when the unknown name comes first in batch iteration order. -/
theorem C1_bulk_configure_not_atomic (good : List (String × Dict Val))
    (s : AuthPagesRegistry) (bad : String) (c : Dict Val)
    (rest : List (String × Dict Val))
    (hgood : ∀ p ∈ good, dmem s.enabled_pages p.1 = true)
    (hbad : dmem s.enabled_pages bad = false) :
    AuthPagesRegistry.bulk_configure s (good ++ (bad, c) :: rest) =
      (good.foldl (fun t p => applyPageEntry t p.1 p.2) s,
       some ("Unknown auth page: " ++ bad)) := by
  induction good generalizing s with
  | nil => simp [AuthPagesRegistry.bulk_configure, hbad]
  | cons p ps ih =>
      obtain ⟨pn, pc⟩ := p
      have hp : dmem s.enabled_pages pn = true := hgood (pn, pc) (by simp)
      simp only [List.cons_append, AuthPagesRegistry.bulk_configure, hp, if_pos,
        List.foldl_cons]
      exact ih (applyPageEntry s pn pc)
        (fun q hq => by rw [dmem_applyPageEntry s pn pc q.1 hp]; exact hgood q (by simp [hq]))
        (by rw [dmem_applyPageEntry s pn pc bad hp]; exact hbad)

/-- Witness for `C1_bulk_configure_not_atomic` at a concrete batch. -/
theorem C1_bulk_configure_not_atomic_witness :
    ((∀ p ∈ [("signin", [("enabled", Val.vbool false)])],
        dmem AuthPagesRegistry.init.enabled_pages p.1 = true) ∧
      dmem AuthPagesRegistry.init.enabled_pages "nope" = false) ∧
    AuthPagesRegistry.bulk_configure AuthPagesRegistry.init
        ([("signin", [("enabled", Val.vbool false)])] ++ ("nope", ([] : Dict Val)) :: []) =
      ([("signin", [("enabled", Val.vbool false)])].foldl
          (fun t p => applyPageEntry t p.1 p.2) AuthPagesRegistry.init,
       some ("Unknown auth page: " ++ "nope")) :=
  ⟨⟨by decide, by decide⟩,
   C1_bulk_configure_not_atomic [("signin", [("enabled", Val.vbool false)])]
     AuthPagesRegistry.init "nope" [] [] (by decide) (by decide)⟩

/-- C1 counterexample to the claim as stated: in the batch
`[signin ↦ (enabled := false), nope ↦ ()]` the name `nope` is outside the page
enumeration, the call raises the unknown-page error, and yet the registry state
is not the state before the call — `signin` has been disabled. -/
theorem C1_counterexample :
    (AuthPagesRegistry.bulk_configure AuthPagesRegistry.init
        [("signin", [("enabled", Val.vbool false)]), ("nope", [])]).2.isSome = true ∧
    (AuthPagesRegistry.bulk_configure AuthPagesRegistry.init
        [("signin", [("enabled", Val.vbool false)]), ("nope", [])]).1 ≠
      AuthPagesRegistry.init := by
  decide

theorem normalizeRole_fst_fst (r : RoleInput) : (normalizeRole r).1.1 = r.name := by
  cases r <;> rfl

/-- Full characterization of the `register_roles` declaration loop: it appends
the normalized records to the role list and threads the staff-status map
through `dset`, leaving every other field of the registry untouched. -/
theorem registerLoop_eq (roles : List RoleInput) (t : AuthConfig) :
    roles.foldl AuthConfig.register_one t =
      { t with roles := t.roles ++ roles.map (fun r => (normalizeRole r).1),
               role_staff_status := staffAfter t.role_staff_status roles } := by
  induction roles generalizing t with
  | nil => simp [staffAfter]
  | cons r rs ih =>
      rw [List.foldl_cons, ih]
      simp [AuthConfig.register_one, staffAfter]

theorem register_roles_roles (s : AuthConfig) (roles : List RoleInput)
    (default_role : Option String) :
    (AuthConfig.register_roles s roles default_role).1.roles =
      roles.map (fun r => (normalizeRole r).1) := by
  unfold AuthConfig.register_roles
  rw [registerLoop_eq]
  rcases default_role with _ | d
  · simp
  · dsimp only
    split
    · simp
    · split <;> simp

theorem staffAfter_notin (roles : List RoleInput) (m : Dict Bool) (n : String)
    (h : (roles.map RoleInput.name).contains n = false) :
    dget (staffAfter m roles) n = dget m n := by
  induction roles generalizing m with
  | nil => rfl
  | cons r rs ih =>
      simp only [List.map_cons, List.contains_cons, Bool.or_eq_false_iff,
        beq_eq_false_iff_ne] at h
      show dget (staffAfter (dset m (normalizeRole r).1.1 (normalizeRole r).2) rs) n = dget m n
      rw [ih _ h.2, dget_dset, normalizeRole_fst_fst, if_neg h.1]

/-- C5 (confirmed): `register_roles` is a full replace of the role set.  For any
prior state and any two successive calls `register_roles R1` then
`register_roles R2` (with arbitrary `default_role` arguments),
`is_valid_role n` afterwards returns true exactly for the names occurring in
`R2` — names occurring only in `R1` are no longer valid. -/
theorem C5_register_roles_full_replace (s : AuthConfig) (R1 R2 : List RoleInput)
    (d1 d2 : Option String) (n : String) :
    AuthConfig.is_valid_role
        (AuthConfig.register_roles (AuthConfig.register_roles s R1 d1).1 R2 d2).1 n =
      (R2.map RoleInput.name).contains n := by
  unfold AuthConfig.is_valid_role AuthConfig.get_roles
  rw [register_roles_roles, List.map_map]
  have hc : (Prod.fst ∘ fun r => (normalizeRole r).1) = RoleInput.name :=
    funext fun r => normalizeRole_fst_fst r
  rw [hc]

theorem register_roles_none_staff_frame (s : AuthConfig) (R : List RoleInput) (n : String)
    (h : (R.map RoleInput.name).contains n = false) :
    dget (AuthConfig.register_roles s R none).1.role_staff_status n =
      dget s.role_staff_status n := by
  show dget (R.foldl AuthConfig.register_one { s with roles := [] }).role_staff_status n = _
  rw [registerLoop_eq]
  exact staffAfter_notin R _ n h

/-- C8 (confirmed): `register_roles` resets only the role list.  (i) Staff-status
entries whose names are not re-declared in the new batch are retained verbatim;
(ii) when the `default_role` argument is omitted the previously set default
role is kept; (iii) consequently, after the two-module startup sequence
`cfgStale`, `get_staff_roles` returns `admin` although `is_valid_role "admin"`
is false, and `get_default_role` also returns that stale name. -/
theorem C8_register_roles_frame :
    (∀ (s : AuthConfig) (R : List RoleInput) (n : String),
        (R.map RoleInput.name).contains n = false →
        dget (AuthConfig.register_roles s R none).1.role_staff_status n =
          dget s.role_staff_status n) ∧
    (∀ (s : AuthConfig) (R : List RoleInput),
        (AuthConfig.register_roles s R none).1.default_role = s.default_role) ∧
    (AuthConfig.get_staff_roles cfgStale = ["admin"] ∧
     AuthConfig.is_valid_role cfgStale "admin" = false ∧
     AuthConfig.get_default_role cfgStale = some "admin") :=
  ⟨register_roles_none_staff_frame,
   fun s R => by
    show (R.foldl AuthConfig.register_one { s with roles := [] }).default_role = _
    rw [registerLoop_eq],
   by decide, by decide, by decide⟩

/-- Witness for `C8_register_roles_frame` at a concrete registration. -/
theorem C8_register_roles_frame_witness :
    (([RoleInput.rstr "student"].map RoleInput.name).contains "admin" = false) ∧
    dget (AuthConfig.register_roles cfgAdmin [RoleInput.rstr "student"] none).1.role_staff_status
        "admin" = dget cfgAdmin.role_staff_status "admin" :=
  ⟨by decide,
   C8_register_roles_frame.1 cfgAdmin [RoleInput.rstr "student"] "admin" (by decide)⟩

/-- C9 (confirmed): when `register_roles(roles, default_role)` is called with a
`default_role` outside the given roles, the `ValueError` is raised only after
the role list and the staff-status entries have been overwritten with the new
roles, and the old default role is still in place: the final state carries the
new role set together with the unchanged previous default (not atomic on
failure). -/
theorem C9_register_roles_error_after_overwrite (s : AuthConfig) (R : List RoleInput)
    (d : String) (hne : d.isEmpty = false)
    (hnot : (R.map RoleInput.name).contains d = false) :
    AuthConfig.register_roles s R (some d) =
      ({ s with roles := R.map (fun r => (normalizeRole r).1),
                role_staff_status := staffAfter s.role_staff_status R },
       some ("Default role " ++ d ++ " not in registered roles")) := by
  unfold AuthConfig.register_roles
  rw [registerLoop_eq]
  simp only [List.nil_append]
  have hval : AuthConfig.is_valid_role
      { s with roles := R.map (fun r => (normalizeRole r).1),
               role_staff_status := staffAfter s.role_staff_status R } d = false := by
    unfold AuthConfig.is_valid_role AuthConfig.get_roles
    show ((R.map (fun r => (normalizeRole r).1)).map Prod.fst).contains d = false
    rw [List.map_map]
    have hc : (Prod.fst ∘ fun r => (normalizeRole r).1) = RoleInput.name :=
      funext fun r => normalizeRole_fst_fst r
    rw [hc]; exact hnot
  simp [hne, hval]

/-- Witness for `C9_register_roles_error_after_overwrite`: re-declaring the role
set as `student` with default `teacher` fails but leaves the new role set and
the old default `admin` behind. -/
theorem C9_register_roles_error_after_overwrite_witness :
    AuthConfig.register_roles cfgAdmin [RoleInput.rstr "student"] (some "teacher") =
      ({ cfgAdmin with
          roles := [RoleInput.rstr "student"].map (fun r => (normalizeRole r).1),
          role_staff_status := staffAfter cfgAdmin.role_staff_status [RoleInput.rstr "student"] },
       some ("Default role " ++ "teacher" ++ " not in registered roles")) :=
  C9_register_roles_error_after_overwrite cfgAdmin [RoleInput.rstr "student"] "teacher"
    (by decide) (by decide)

/-- C10 counterexample to the claim as stated: in the reachable registry state
`cfgStale` the name `admin` is not currently registered, yet
`get_role_staff_status "admin"` returns `true` — the staff-status entry
retained from the earlier registration, not `false`. -/
theorem C10_counterexample :
    AuthConfig.is_valid_role cfgStale "admin" = false ∧
    AuthConfig.get_role_staff_status cfgStale "admin" = true := by
  decide

/-- C10 (corrected claim): both staff-status reads are permissive — neither
ever raises, unlike `set_role_staff_status` and `set_default_role` which raise
for unregistered names and mutate nothing.  `get_role_staff_status` on the
in-process registry returns `false` for a name with no staff-status entry, but
for a name retained in the staff-status map from an earlier registration it
returns the retained value even when the name is no longer registered; the
persistent lookup returns `false` exactly when no role record with the name
exists. -/
theorem C10_staff_status_reads_permissive :
    (∀ (s : AuthConfig) (n : String), dget s.role_staff_status n = none →
        AuthConfig.get_role_staff_status s n = false) ∧
    (∀ (s : AuthConfig) (n : String) (b : Bool), dget s.role_staff_status n = some b →
        AuthConfig.get_role_staff_status s n = b) ∧
    (∀ (db : RoleDB) (n : String), db.filter (fun r => r.name == n) = [] →
        UserRole.get_role_staff_status db n = false) ∧
    (∀ (s : AuthConfig) (n : String) (st : Bool), AuthConfig.is_valid_role s n = false →
        AuthConfig.set_role_staff_status s n st =
          (s, some ("Role " ++ n ++ " not registered"))) ∧
    (∀ (s : AuthConfig) (n : String), AuthConfig.is_valid_role s n = false →
        AuthConfig.set_default_role s n = (s, some ("Role " ++ n ++ " not registered"))) :=
  ⟨fun s n h => by simp [AuthConfig.get_role_staff_status, h],
   fun s n b h => by simp [AuthConfig.get_role_staff_status, h],
   fun db n h => by simp [UserRole.get_role_staff_status, h],
   fun s n st h => by simp [AuthConfig.set_role_staff_status, h],
   fun s n h => by simp [AuthConfig.set_default_role, h]⟩

/-- Witness for `C10_staff_status_reads_permissive` at concrete inputs. -/
theorem C10_staff_status_reads_permissive_witness :
    AuthConfig.get_role_staff_status AuthConfig.init "ghost" = false ∧
    AuthConfig.get_role_staff_status cfgStale "admin" = true ∧
    UserRole.get_role_staff_status ([] : RoleDB) "ghost" = false ∧
    AuthConfig.set_role_staff_status AuthConfig.init "ghost" true =
      (AuthConfig.init, some ("Role " ++ "ghost" ++ " not registered")) ∧
    AuthConfig.set_default_role AuthConfig.init "ghost" =
      (AuthConfig.init, some ("Role " ++ "ghost" ++ " not registered")) :=
  ⟨C10_staff_status_reads_permissive.1 AuthConfig.init "ghost" (by decide),
   C10_staff_status_reads_permissive.2.1 cfgStale "admin" true (by decide),
   C10_staff_status_reads_permissive.2.2.1 [] "ghost" (by decide),
   C10_staff_status_reads_permissive.2.2.2.1 AuthConfig.init "ghost" true (by decide),
   C10_staff_status_reads_permissive.2.2.2.2 AuthConfig.init "ghost" (by decide)⟩

theorem registerHomeUrlAll_registered (rest : List (String × String))
    (s : HomeURLRegistry) (h : s.registered = true) :
    registerHomeUrlAll s rest = (s, List.replicate rest.length false) := by
  induction rest generalizing s with
  | nil => rfl
  | cons p ps ih =>
      obtain ⟨u, a⟩ := p
      simp only [registerHomeUrlAll, HomeURLRegistry.register_home_url, h, if_pos,
        List.length_cons, List.replicate_succ]
      rw [ih s h]

/-- C7 (confirmed): the home-URL registry is first-registration-wins.  After a
successful `register_home_url u1 a1`, every one of an arbitrary sequence of
subsequent `register_home_url` calls returns `false` without raising, and
afterwards `get_home_url_name()` still returns `u1` and the owning app is still
`a1`. -/
theorem C7_home_url_first_registration_wins (s : HomeURLRegistry) (u1 a1 : String)
    (h : (s.register_home_url u1 a1).2 = true) (rest : List (String × String)) :
    HomeURLRegistry.get_home_url_name
        (registerHomeUrlAll (s.register_home_url u1 a1).1 rest).1 = some u1 ∧
    (registerHomeUrlAll (s.register_home_url u1 a1).1 rest).1.home_app = some a1 ∧
    (registerHomeUrlAll (s.register_home_url u1 a1).1 rest).2 =
      List.replicate rest.length false := by
  have hreg : s.registered = false := by
    by_contra hc
    rw [Bool.not_eq_false] at hc
    simp [HomeURLRegistry.register_home_url, hc] at h
  have hs1 : (s.register_home_url u1 a1).1 =
      { home_url_name := some u1, home_app := some a1, registered := true } := by
    simp [HomeURLRegistry.register_home_url, hreg]
  rw [hs1, registerHomeUrlAll_registered rest _ rfl]
  exact ⟨rfl, rfl, rfl⟩

/-- Witness for `C7_home_url_first_registration_wins` at a concrete sequence. -/
theorem C7_home_url_first_registration_wins_witness :
    HomeURLRegistry.get_home_url_name
        (registerHomeUrlAll (HomeURLRegistry.init.register_home_url "landing" "apps.landing").1
          [("blog", "apps.blog"), ("shop", "apps.shop")]).1 = some "landing" ∧
    (registerHomeUrlAll (HomeURLRegistry.init.register_home_url "landing" "apps.landing").1
        [("blog", "apps.blog"), ("shop", "apps.shop")]).1.home_app = some "apps.landing" ∧
    (registerHomeUrlAll (HomeURLRegistry.init.register_home_url "landing" "apps.landing").1
        [("blog", "apps.blog"), ("shop", "apps.shop")]).2 =
      List.replicate [("blog", "apps.blog"), ("shop", "apps.shop")].length false :=
  C7_home_url_first_registration_wins HomeURLRegistry.init "landing" "apps.landing"
    (by decide) [("blog", "apps.blog"), ("shop", "apps.shop")]

/-- C2 (code bug, evaluated at the failing input as the snapshot runs): for
the persisted staff non-superuser `uTwoGroupsStaff` simultaneously assigned to
the two role groups of `dbTwoRoles`, the body of `User.clean` raises only the
`FieldError` of the broken `usergroup` lookup — the multiple-roles validation
error is never constructed — and that exception is caught by the method's own
`except Exception` handler, so `clean` returns without error; the next
reconciliation (the group-change receiver, and the save-path recomputation)
sees no role at all and silently strips the staff flag from `true` to `false`
instead of surfacing an error and leaving the flag unchanged. -/
theorem C2_multiple_roles_error_swallowed :
    User.cleanException_run dbTwoRoles uTwoGroupsStaff =
      some "Cannot resolve keyword usergroup into field" ∧
    User.clean_run dbTwoRoles uTwoGroupsStaff = none ∧
    User.get_role_object_run dbTwoRoles uTwoGroupsStaff = none ∧
    update_user_staff_status_on_group_change_run dbTwoRoles uTwoGroupsStaff =
      { uTwoGroupsStaff with is_staff := false } ∧
    User.save_existing_run dbTwoRoles uTwoGroupsStaff =
      { uTwoGroupsStaff with is_staff := false } := by
  decide

theorem update_staff_from_groups_preserves_su (db : RoleDB) (u : User) :
    (User.update_staff_status_from_groups db u).is_superuser = u.is_superuser := by
  unfold User.update_staff_status_from_groups
  split <;> split <;> rfl

theorem save_existing_su (db : RoleDB) (u : User) (h : u.is_superuser = true) :
    (User.save_existing db u).is_superuser = true ∧
    (User.save_existing db u).is_staff = true := by
  unfold User.save_existing
  cases hst : u.is_staff <;> simp [h, hst]

theorem save_existing_preserves_su (db : RoleDB) (u : User) :
    (User.save_existing db u).is_superuser = u.is_superuser := by
  unfold User.save_existing
  cases hsu : u.is_superuser <;> cases hst : u.is_staff <;>
    simp [hsu, hst, update_staff_from_groups_preserves_su]

theorem group_change_handler_su (db : RoleDB) (u : User) (h : u.is_superuser = true) :
    update_user_staff_status_on_group_change db u = u := by
  simp [update_user_staff_status_on_group_change, h]

theorem set_role_su (db : RoleDB) (u : User) (rn : String) (h : u.is_superuser = true) :
    (User.set_role db u rn).1.is_superuser = true ∧
    (User.set_role db u rn).1.is_staff = u.is_staff := by
  unfold User.set_role
  rcases hf : db.filter (fun r => r.name == rn) with _ | ⟨nr, rest⟩
  · rw [hf]
    exact ⟨h, rfl⟩
  · rcases rest with _ | ⟨r2, rest⟩
    · rw [hf]
      simp [update_user_staff_status_on_group_change, h]
    · rw [hf]
      exact ⟨h, rfl⟩

theorem assign_default_role_su (db : RoleDB) (u : User) (h : u.is_superuser = true) :
    (User.assign_default_role db u).is_superuser = true ∧
    (User.assign_default_role db u).is_staff = u.is_staff := by
  unfold User.assign_default_role
  split
  · exact ⟨h, rfl⟩
  · split
    · exact set_role_su db u _ h
    · exact ⟨h, rfl⟩

theorem save_su (db : RoleDB) (u : User) (fpk : Nat) (h : u.is_superuser = true) :
    (User.save db u fpk).is_superuser = true ∧ (User.save db u fpk).is_staff = true := by
  unfold User.save
  dsimp only
  set u1 := if u.is_superuser && !u.is_staff then { u with is_staff := true } else u with hu1
  set u2 := if u.pk.isNone then { u1 with pk := some fpk } else u1 with hu2
  set u3 := if u.pk.isNone then User.assign_default_role db u2 else u2 with hu3
  have h1su : u1.is_superuser = true := by rw [hu1]; split <;> exact h
  have h1st : u1.is_staff = true := by
    rw [hu1]
    rcases hst : u.is_staff
    · rw [if_pos (by simp [h, hst])]
    · rw [if_neg (by simp [h, hst])]; exact hst
  have h2su : u2.is_superuser = true := by rw [hu2]; split <;> exact h1su
  have h2st : u2.is_staff = true := by rw [hu2]; split <;> exact h1st
  have h3su : u3.is_superuser = true := by
    rw [hu3]; split
    · exact (assign_default_role_su db u2 h2su).1
    · exact h2su
  have h3st : u3.is_staff = true := by
    rw [hu3]; split
    · rw [(assign_default_role_su db u2 h2su).2]; exact h2st
    · exact h2st
  refine ⟨?_, ?_⟩
  · rw [if_neg (by rw [h3su]; simp)]
    exact h3su
  · rw [if_neg (by rw [h3su]; simp)]
    exact h3st

theorem update_user_staff_status_preserves_su (cfg : AuthConfig) (db : RoleDB) (u : User) :
    ((cfg.update_user_staff_status db u).2).is_superuser = u.is_superuser := by
  unfold AuthConfig.update_user_staff_status
  dsimp only
  split
  · split
    · exact save_existing_preserves_su db _
    · rfl
  · rfl

theorem update_user_staff_status_su (cfg : AuthConfig) (db : RoleDB) (u : User)
    (hsu : u.is_superuser = true) (hst : u.is_staff = true) :
    ((cfg.update_user_staff_status db u).2).is_staff = true := by
  unfold AuthConfig.update_user_staff_status
  dsimp only
  split
  · split
    · exact (save_existing_su db
        { u with is_staff := cfg.get_role_staff_status (User.get_role db u) } hsu).2
    · exact hst
  · exact hst

theorem bulk_update_aux (cfg : AuthConfig) (db : RoleDB) (users : List User)
    (n : Nat) (acc : List User) :
    users.foldl (fun acc u =>
      let r := cfg.update_user_staff_status db u
      (acc.1 + (if r.1 then 1 else 0), acc.2 ++ [r.2])) (n, acc) =
      (n + users.countP (fun u => (cfg.update_user_staff_status db u).1),
       acc ++ users.map (fun u => (cfg.update_user_staff_status db u).2)) := by
  induction users generalizing n acc with
  | nil => simp
  | cons u us ih =>
      simp only [List.foldl_cons, List.countP_cons, List.map_cons]
      rw [ih, Prod.mk.injEq]
      refine ⟨by omega, by simp⟩

/-- `bulk_update_staff_status` characterized entry-wise: it applies
`update_user_staff_status` to every user of the table and counts the calls
that reported an update. -/
theorem bulk_update_spec (cfg : AuthConfig) (db : RoleDB) (users : List User) :
    cfg.bulk_update_staff_status db users =
      (users.countP (fun u => (cfg.update_user_staff_status db u).1),
       users.map (fun u => (cfg.update_user_staff_status db u).2)) := by
  unfold AuthConfig.bulk_update_staff_status
  rw [bulk_update_aux]
  simp

theorem update_user_staff_status_run_eq (cfg : AuthConfig) (db : RoleDB) (u : User) :
    cfg.update_user_staff_status_run db u = (false, u) := rfl

theorem bulk_run_aux (cfg : AuthConfig) (db : RoleDB) (users : List User)
    (n : Nat) (acc : List User) :
    users.foldl (fun acc u =>
      let r := cfg.update_user_staff_status_run db u
      (acc.1 + (if r.1 then 1 else 0), acc.2 ++ [r.2])) (n, acc) = (n, acc ++ users) := by
  induction users generalizing n acc with
  | nil => simp
  | cons u us ih =>
      rw [List.foldl_cons]
      show List.foldl _ (n, acc ++ [u]) us = (n, acc ++ u :: us)
      rw [ih]
      simp

/-- C4 (code bug, as the snapshot runs): `bulk_update_staff_status` applies
`update_user_staff_status` to every user, but `user.get_role()` always returns
the no-role sentinel (the `usergroup` filter raises `FieldError`, which
`get_role` catches), so every per-user call reports `False` without touching
the user, and the bulk call returns the pair of a zero count and the untouched
user table — bulk reconciliation reconciles nothing, contrary to the claim and
to the method's own stated purpose.  Concretely, in the spec's own staff-edit
scenario (`student` flagged staff in the registry, a non-staff member awaiting
the repair), reconciliation leaves the stale flag in place and reports no
update. -/
theorem C4_bulk_reconciliation_is_noop (cfg : AuthConfig) (db : RoleDB)
    (users : List User) :
    cfg.bulk_update_staff_status_run db users = (0, users) ∧
    (AuthConfig.get_role_staff_status cfgStudentStaff "student" = true ∧
     uStale.is_staff = false ∧
     User.get_role_run dbStudent uStale = "No role assigned" ∧
     AuthConfig.update_user_staff_status_run cfgStudentStaff dbStudent uStale =
       (false, uStale) ∧
     AuthConfig.bulk_update_staff_status_run cfgStudentStaff dbStudent [uStale] =
       (0, [uStale])) := by
  constructor
  · unfold AuthConfig.bulk_update_staff_status_run
    rw [bulk_run_aux]
    simp
  · refine ⟨by decide, by decide, by decide, by decide, by decide⟩

/-- C3 (confirmed): no operation of the core leaves a superuser without the
staff flag.  For a superuser principal, `save` always ends with
`is_staff = true` (it pins the flag unconditionally), and each of `set_role`,
the group-membership-change reconciliation, and the per-principal staff-status
update preserves a true staff flag; role-record saves (`UserRole.save`, which
reconciles its members) and the bulk reconciliation preserve the property that
every superuser in the user table has the staff flag, mutating no superuser's
flag to false. -/
theorem C3_superuser_always_staff (db : RoleDB) (cfg : AuthConfig) (u : User)
    (users : List User) (r : UserRole) (rn : String) (fpk : Nat)
    (hsu : u.is_superuser = true)
    (hlist : ∀ v ∈ users, v.is_superuser = true → v.is_staff = true) :
    (User.save db u fpk).is_staff = true ∧
    (u.is_staff = true → (User.set_role db u rn).1.is_staff = true) ∧
    (u.is_staff = true → (update_user_staff_status_on_group_change db u).is_staff = true) ∧
    (u.is_staff = true → ((cfg.update_user_staff_status db u).2).is_staff = true) ∧
    (∀ v ∈ (UserRole.save db users r fpk).1.2, v.is_superuser = true → v.is_staff = true) ∧
    (∀ v ∈ (cfg.bulk_update_staff_status db users).2, v.is_superuser = true → v.is_staff = true) := by
  refine ⟨(save_su db u fpk hsu).2, ?_, ?_, ?_, ?_, ?_⟩
  · intro hst
    rw [(set_role_su db u rn hsu).2]
    exact hst
  · intro hst
    rw [group_change_handler_su db u hsu]
    exact hst
  · intro hst
    exact update_user_staff_status_su cfg db u hsu hst
  · intro v hv hvsu
    unfold UserRole.save at hv
    rcases hcl : UserRole.clean db r with _ | msg
    · rw [hcl] at hv
      dsimp only at hv
      obtain ⟨w, hw, hfw⟩ := List.mem_map.1 hv
      rcases hwsu : w.is_superuser with _ | _
      · -- non-superuser source: its image keeps a false superuser flag
        exfalso
        rw [← hfw] at hvsu
        revert hvsu
        split
        · split
          · rw [save_existing_preserves_su]
            show ¬(w.is_superuser = true)
            rw [hwsu]; simp
          · rw [hwsu]; simp
        · rw [hwsu]; simp
      · -- superuser source: the guard skips it, so image = source
        have himg : (if w.groups.contains (roleUpsert db r fpk).2.name && !w.is_superuser then
            (if w.is_staff ≠ (roleUpsert db r fpk).2.is_staff_role then
              User.save_existing (roleUpsert db r fpk).1
                { w with is_staff := (roleUpsert db r fpk).2.is_staff_role }
            else w) else w) = w := by
          rw [if_neg (by rw [hwsu]; simp)]
        rw [himg] at hfw
        rw [← hfw]
        exact hlist w hw hwsu
    · rw [hcl] at hv
      exact hlist v hv hvsu
  · intro v hv hvsu
    rw [bulk_update_spec] at hv
    dsimp only at hv
    obtain ⟨w, hw, hfw⟩ := List.mem_map.1 hv
    rcases hwsu : w.is_superuser with _ | _
    · exfalso
      rw [← hfw] at hvsu
      rw [update_user_staff_status_preserves_su, hwsu] at hvsu
      exact Bool.false_ne_true hvsu
    · rw [← hfw]
      exact update_user_staff_status_su cfg db w hwsu (hlist w hw hwsu)

/-- Witness for `C3_superuser_always_staff` at a concrete superuser and table. -/
theorem C3_superuser_always_staff_witness :
    (User.save dbTwoRoles superStudent 9).is_staff = true ∧
    (User.set_role dbTwoRoles superStudent "admin").1.is_staff = true ∧
    (∀ v ∈ (AuthConfig.bulk_update_staff_status cfgStudent dbTwoRoles [superStudent]).2,
        v.is_superuser = true → v.is_staff = true) :=
  ⟨(C3_superuser_always_staff dbTwoRoles cfgStudent superStudent [superStudent]
      { pk := some 1, name := "admin", display_name := "Admin",
        is_staff_role := true, is_default_role := false } "admin" 9 (by decide) (by decide)).1,
   (C3_superuser_always_staff dbTwoRoles cfgStudent superStudent [superStudent]
      { pk := some 1, name := "admin", display_name := "Admin",
        is_staff_role := true, is_default_role := false } "admin" 9 (by decide) (by decide)).2.1 (by decide),
   (C3_superuser_always_staff dbTwoRoles cfgStudent superStudent [superStudent]
      { pk := some 1, name := "admin", display_name := "Admin",
        is_staff_role := true, is_default_role := false } "admin" 9 (by decide) (by decide)).2.2.2.2.2⟩

theorem isEmpty_false_of_mem {α : Type} {x : α} {l : List α} (h : x ∈ l) :
    l.isEmpty = false := by
  cases l
  · cases h
  · rfl

theorem countDefaults_eq_countP (db : RoleDB) :
    countDefaults db = db.countP (fun x => x.is_default_role) :=
  (List.countP_eq_length_filter _ _).symm

theorem countP_map_le_of {α : Type} (p q : α → Bool) (f : α → α) (l : List α)
    (h : ∀ x ∈ l, p (f x) = true → q x = true) :
    (l.map f).countP p ≤ l.countP q := by
  induction l with
  | nil => simp
  | cons a l ih =>
      simp only [List.map_cons, List.countP_cons]
      have hih := ih (fun x hx hpx => h x (List.mem_cons_of_mem a hx) hpx)
      by_cases hp : p (f a) = true
      · rw [if_pos hp, if_pos (h a (List.mem_cons_self a l) hp)]
        omega
      · rw [if_neg hp]
        omega

theorem countP_pk_le_one (db : RoleDB) (v : Option Nat)
    (h : (db.map UserRole.pk).Nodup) :
    db.countP (fun x => x.pk == v) ≤ 1 := by
  induction db with
  | nil => simp
  | cons a l ih =>
      rw [List.map_cons, List.nodup_cons] at h
      rw [List.countP_cons]
      by_cases ha : (a.pk == v) = true
      · have hv : a.pk = v := beq_iff_eq.1 ha
        have hzero : l.countP (fun x => x.pk == v) = 0 := by
          rw [List.countP_eq_zero]
          intro x hx hbx
          have hxv : x.pk = v := beq_iff_eq.1 hbx
          have hmem : x.pk ∈ l.map UserRole.pk := List.mem_map_of_mem UserRole.pk hx
          rw [hxv, ← hv] at hmem
          exact h.1 hmem
        rw [hzero, if_pos ha]
      · rw [if_neg ha]
        have := ih h.2
        omega

/-- C6 (confirmed): at most one role holds `is_default_role` at any time.
Saving a role record flagged as default while a different persisted role
(different pk) already holds the flag fails `clean` with the validation error
before anything is persisted, leaving the role table — including the prior
default role's flag — and the user table untouched; and under the database
invariants (unique, assigned pks), any role save that succeeds preserves the
at-most-one-default property. -/
theorem C6_single_default_role (db : RoleDB) (users : List User) (r : UserRole)
    (fpk : Nat) (hr : r.is_default_role = true)
    (hprior : ∃ p, p ∈ db ∧ p.is_default_role = true ∧ p.pk ≠ r.pk) :
    ((UserRole.save db users r fpk).2.isSome = true ∧
     (UserRole.save db users r fpk).1.1 = db ∧
     (UserRole.save db users r fpk).1.2 = users) ∧
    (∀ (db₂ : RoleDB) (us₂ : List User) (r₂ : UserRole) (f₂ : Nat),
        (db₂.map UserRole.pk).Nodup → (∀ x ∈ db₂, x.pk ≠ none) →
        countDefaults db₂ ≤ 1 → (UserRole.save db₂ us₂ r₂ f₂).2 = none →
        countDefaults (UserRole.save db₂ us₂ r₂ f₂).1.1 ≤ 1) := by
  constructor
  · obtain ⟨p, hpmem, hpdef, hpne⟩ := hprior
    have hclean : ∃ msg, UserRole.clean db r = some msg := by
      unfold UserRole.clean
      have hpin : p ∈ db.filter (fun x => x.is_default_role && !(decide (x.pk = r.pk))) :=
        List.mem_filter.2 ⟨hpmem, by rw [hpdef]; simp [hpne]⟩
      rw [if_pos (by rw [hr, isEmpty_false_of_mem hpin]; rfl)]
      exact ⟨_, rfl⟩
    obtain ⟨msg, hclean⟩ := hclean
    refine ⟨?_, ?_, ?_⟩ <;> (unfold UserRole.save; rw [hclean]; all_goals rfl)
  · intro db₂ us₂ r₂ f₂ hnodup hwf hle hok
    unfold UserRole.save at hok ⊢
    rcases hcl : UserRole.clean db₂ r₂ with _ | msg
    · dsimp only
      have hcond : (r₂.is_default_role &&
          !(db₂.filter (fun x => x.is_default_role && !(decide (x.pk = r₂.pk)))).isEmpty) = false := by
        by_contra hc
        rw [Bool.not_eq_false] at hc
        unfold UserRole.clean at hcl
        rw [if_pos hc] at hcl
        cases hcl
      rw [countDefaults_eq_countP]
      rw [countDefaults_eq_countP] at hle
      rcases hrdef : r₂.is_default_role with _ | _
      · -- saved role not flagged default: the count cannot increase past the bound
        unfold roleUpsert
        rcases hpk : r₂.pk with _ | p
        · dsimp only
          rw [List.countP_append]
          have h0 : ({ r₂ with pk := some f₂ } :: ([] : RoleDB)).countP
              (fun x => x.is_default_role) = 0 := by
            rw [List.countP_eq_zero]
            intro a ha
            rw [List.mem_singleton] at ha
            subst ha
            show ¬({ r₂ with pk := some f₂ }.is_default_role = true)
            rw [show ({ r₂ with pk := some f₂ } : UserRole).is_default_role = r₂.is_default_role from rfl, hrdef]
            simp
          rw [h0]
          omega
        · dsimp only
          by_cases hany : db₂.any (fun x => x.pk == some p) = true
          · rw [if_pos hany]
            dsimp only
            have hmap : (db₂.map (fun x => if x.pk == some p then r₂ else x)).countP
                (fun x => x.is_default_role) ≤ db₂.countP (fun x => x.is_default_role) := by
              refine countP_map_le_of _ _ _ _ ?_
              intro x hx hdx
              by_cases hxp : (x.pk == some p) = true
              · rw [if_pos hxp] at hdx
                rw [hrdef] at hdx
                cases hdx
              · rw [if_neg hxp] at hdx
                exact hdx
            omega
          · rw [if_neg hany]
            dsimp only
            rw [List.countP_append]
            have h0 : (r₂ :: ([] : RoleDB)).countP (fun x => x.is_default_role) = 0 := by
              rw [List.countP_eq_zero]
              intro a ha
              rw [List.mem_singleton] at ha
              subst ha
              rw [hrdef]
              simp
            rw [h0]
            omega
      · -- saved role flagged default: every other default shares its pk
        have hfe : (db₂.filter (fun x => x.is_default_role && !(decide (x.pk = r₂.pk)))).isEmpty = true := by
          rw [hrdef] at hcond
          rcases hie : (db₂.filter (fun x => x.is_default_role && !(decide (x.pk = r₂.pk)))).isEmpty with _ | _
          · rw [hie] at hcond
            cases hcond
          · exact hie
        have hfnil : db₂.filter (fun x => x.is_default_role && !(decide (x.pk = r₂.pk))) = [] :=
          List.isEmpty_iff.1 hfe
        have hall : ∀ x ∈ db₂, x.is_default_role = true → x.pk = r₂.pk := by
          intro x hx hxd
          by_contra hne
          have hxin : x ∈ db₂.filter (fun x => x.is_default_role && !(decide (x.pk = r₂.pk))) :=
            List.mem_filter.2 ⟨hx, by rw [hxd]; simp [hne]⟩
          rw [hfnil] at hxin
          cases hxin
        unfold roleUpsert
        rcases hpk : r₂.pk with _ | p
        · -- inserting a new default: the table holds no default (all pks are assigned)
          dsimp only
          rw [List.countP_append]
          have h0 : db₂.countP (fun x => x.is_default_role) = 0 := by
            rw [List.countP_eq_zero]
            intro x hx hxd
            have := hall x hx hxd
            rw [hpk] at this
            exact hwf x hx this
          rw [h0]
          have h1 : ({ r₂ with pk := some f₂ } :: ([] : RoleDB)).countP
              (fun x => x.is_default_role) ≤ 1 := by
            rw [List.countP_cons]
            simp [hrdef]
          omega
        · dsimp only
          by_cases hany : db₂.any (fun x => x.pk == some p) = true
          · -- updating the single row with this pk; other rows are non-default
            rw [if_pos hany]
            dsimp only
            have hmap : (db₂.map (fun x => if x.pk == some p then r₂ else x)).countP
                (fun x => x.is_default_role) ≤ db₂.countP (fun x => x.pk == some p) := by
              refine countP_map_le_of _ _ _ _ ?_
              intro x hx hdx
              by_cases hxp : (x.pk == some p) = true
              · exact hxp
              · rw [if_neg hxp] at hdx
                have := hall x hx hdx
                rw [hpk] at this
                rw [beq_iff_eq.2 this] at hxp
                cases hxp rfl
            have hone := countP_pk_le_one db₂ (some p) hnodup
            omega
          · -- inserting with a fresh explicit pk: no default can be in the table
            rw [if_neg hany]
            dsimp only
            rw [List.countP_append]
            have h0 : db₂.countP (fun x => x.is_default_role) = 0 := by
              rw [List.countP_eq_zero]
              intro x hx hxd
              have hxpk := hall x hx hxd
              rw [hpk] at hxpk
              apply hany
              rw [List.any_eq_true]
              exact ⟨x, hx, beq_iff_eq.2 hxpk⟩
            rw [h0]
            have h1 : (r₂ :: ([] : RoleDB)).countP (fun x => x.is_default_role) ≤ 1 := by
              rw [List.countP_cons]
              simp [hrdef]
            omega
    · rw [hcl] at hok
      cases hok

/-- Witness for `C6_single_default_role`: saving a second default role while
`student` (pk 2) already holds the default flag fails and changes nothing. -/
theorem C6_single_default_role_witness :
    (UserRole.save dbTwoRoles []
        { pk := some 3, name := "teacher", display_name := "Teacher",
          is_staff_role := false, is_default_role := true } 3).2.isSome = true ∧
    (UserRole.save dbTwoRoles []
        { pk := some 3, name := "teacher", display_name := "Teacher",
          is_staff_role := false, is_default_role := true } 3).1.1 = dbTwoRoles ∧
    (UserRole.save dbTwoRoles []
        { pk := some 3, name := "teacher", display_name := "Teacher",
          is_staff_role := false, is_default_role := true } 3).1.2 = ([] : List User) :=
  (C6_single_default_role dbTwoRoles []
    { pk := some 3, name := "teacher", display_name := "Teacher",
      is_staff_role := false, is_default_role := true } 3 (by decide)
    ⟨{ pk := some 2, name := "student", display_name := "Student",
       is_staff_role := false, is_default_role := true },
     by decide, by decide, by decide⟩).1

end Schools
